import Mathlib

/-!
Verification of the SMS conversation-processing pipeline
(`sms-agent-python`): a shallow embedding of the database layer
(`database/db.py`), the decision policy and classifier wrappers
(`agent/sms_agent.py`), and the coordinator (`agent/sms_processor.py`),
together with theorems settling the behavioural claims about them.

Modelling conventions:
- Python strings are Lean `String`s; `str.lower` / `str.strip` are
  embedded for the ASCII range (all keyword matching in the source is
  ASCII).
- SQLite state is a record of lists plus counters.  The repository ships
  `database/schema.sql` but that file is not part of the sources given
  here, so the column defaults it declares (message `timestamp`,
  autoincrementing ids) are modelled from the spec: the store stamps
  each committed row with a strictly increasing logical clock.
- Python `None` / exceptions are `Option` / explicit outcome values; the
  opaque AI calls are parameters supplying their outcome.
-/

namespace SMS

/-- ASCII lower-casing of one character, as `str.lower` acts on the ASCII
range (the embedding of `message.lower()` in `should_auto_reply`). -/
def lowerChar (c : Char) : Char :=
  if 65 ≤ c.toNat && c.toNat ≤ 90 then Char.ofNat (c.toNat + 32) else c

/-- Embedding of Python `str.lower` (ASCII range). -/
def pyLower (s : String) : String := ⟨s.data.map lowerChar⟩

/-- ASCII whitespace recognised by Python `str.strip`. -/
def isSpaceChar (c : Char) : Bool :=
  c == ' ' || c == '\t' || c == '\n' || c == '\r'

/-- Drop leading and trailing whitespace from a character list. -/
def trimChars (l : List Char) : List Char :=
  (((l.dropWhile isSpaceChar).reverse).dropWhile isSpaceChar).reverse

/-- Embedding of Python `str.strip`. -/
def pyStrip (s : String) : String := ⟨trimChars s.data⟩

/-- `isPrefixList n h` holds when `n` is a list prefix of `h`. -/
def isPrefixList : List Char → List Char → Bool
  | [], _ => true
  | _ :: _, [] => false
  | a :: as, b :: bs => a == b && isPrefixList as bs

/-- `subMatch needle hay`: Python substring containment `needle in hay`. -/
def subMatch : List Char → List Char → Bool
  | needle, [] => isPrefixList needle []
  | needle, c :: cs => isPrefixList needle (c :: cs) || subMatch needle cs

/-- Embedding of Python `needle in hay` on strings. -/
def strContains (hay needle : String) : Bool := subMatch needle.data hay.data

/-- Python truthiness of an optional string (`None` and `""` are falsy),
used by `should_auto_reply` in `not context.contact.relationship`. -/
def pyTruthy : Option String → Bool
  | none => false
  | some s => !(s == "")

/-- `database/models.py` `Contact` dataclass.  Wall-clock datetimes are
modelled as logical-clock `Nat` values. -/
structure Contact where
  id : Option Nat := none
  phone_number : String := ""
  name : Option String := none
  relationship : Option String := none
  trust_level : Nat := 0
  created_at : Option Nat := none
  updated_at : Option Nat := none
  deriving Repr, DecidableEq

/-- `database/models.py` `Message` dataclass. -/
structure Message where
  id : Option Nat := none
  contact_id : Nat := 0
  phone_number : String := ""
  message_text : String := ""
  direction : String := ""
  timestamp : Option Nat := none
  is_auto_reply : Bool := false
  deriving Repr, DecidableEq

/-- The fixed urgent keyword list of `SMSAgent.should_auto_reply`. -/
def urgent_keywords : List String :=
  ["urgent", "emergency", "important", "asap", "help", "call me",
   "need you", "problem", "issue", "trouble", "hospital", "accident"]

/-- The fixed sensitive keyword list of `SMSAgent.should_auto_reply`. -/
def sensitive_keywords : List String :=
  ["password", "ssn", "social security", "bank", "credit card",
   "pin", "address", "personal", "private"]

/-- `SMSAgent.should_auto_reply` (sms_agent.py lines 120-151): lower-case
and strip the incoming text, then return false on short messages, on
unknown contacts with a falsy relationship, on urgent keywords, on
sensitive keywords, and true otherwise. -/
def should_auto_reply (contact : Contact) (incoming_message : String) : Bool :=
  let message := pyStrip (pyLower incoming_message)
  if message.length < 3 then false
  else if contact.trust_level == 0 && !(pyTruthy contact.relationship) then false
  else if urgent_keywords.any (fun k => strContains message k) then false
  else if sensitive_keywords.any (fun k => strContains message k) then false
  else true

/-- Database state of `database/db.py` (`SMSDatabase`): the contacts and
messages tables in insertion order, the next rowids, and the logical
clock used to stamp rows (modelled from the spec: `schema.sql` is not in
the sources, its timestamp defaults assign the persistence time). -/
structure DBState where
  contacts : List Contact := []
  messages : List Message := []
  nextContactId : Nat := 1
  nextMessageId : Nat := 1
  clock : Nat := 1
  deriving Repr, DecidableEq

/-- The freshly initialised database (empty tables). -/
def emptyDB : DBState := {}

/-- `SMSDatabase.get_or_create_contact` (db.py lines 29-67): return the
existing row for the phone number if any, else insert a new row with
relationship "unknown" and trust_level 0. -/
def get_or_create_contact (db : DBState) (phone_number : String) :
    Contact × DBState :=
  match db.contacts.find? (fun c => c.phone_number == phone_number) with
  | some c => (c, db)
  | none =>
    let c : Contact :=
      { id := some db.nextContactId
        phone_number := phone_number
        name := none
        relationship := some "unknown"
        trust_level := 0
        created_at := some db.clock
        updated_at := some db.clock }
    (c, { db with
            contacts := db.contacts ++ [c]
            nextContactId := db.nextContactId + 1
            clock := db.clock + 1 })

/-- The partial fields accepted by `SMSDatabase.update_contact` at its
call sites (`name`, `relationship`, `trust_level`; `id`, `phone_number`
and `created_at` are filtered out by the source). -/
structure ContactUpdates where
  name : Option String := none
  relationship : Option String := none
  trust_level : Option Nat := none
  deriving Repr, DecidableEq

/-- Whether any field is provided (Python `if not updates: return`). -/
def ContactUpdates.nonempty (u : ContactUpdates) : Bool :=
  u.name.isSome || u.relationship.isSome || u.trust_level.isSome

/-- Merge the provided fields into one contact row and refresh its
`updated_at` (the SET clause built by `update_contact`). -/
def applyUpdates (u : ContactUpdates) (now : Nat) (c : Contact) : Contact :=
  { c with
      name := match u.name with
        | some v => some v
        | none => c.name
      relationship := match u.relationship with
        | some v => some v
        | none => c.relationship
      trust_level := match u.trust_level with
        | some v => v
        | none => c.trust_level
      updated_at := some now }

/-- `SMSDatabase.update_contact` (db.py lines 69-89): when at least one
field is provided, run an UPDATE over the rows matching the phone
number (zero rows affected when the contact is absent — the operation
returns normally either way, there is no NotFound failure). -/
def update_contact (db : DBState) (phone_number : String)
    (u : ContactUpdates) : DBState :=
  if u.nonempty then
    { db with
        contacts := db.contacts.map (fun c =>
          if c.phone_number == phone_number then applyUpdates u db.clock c
          else c)
        clock := db.clock + 1 }
  else db

/-- `SMSDatabase.save_message` (db.py lines 91-108): INSERT the row
(the statement omits the timestamp column, so the stored timestamp is
the schema default — the persistence-time clock, modelled from the
spec — and the construction-time `message.timestamp` is ignored) and
return `lastrowid`. -/
def save_message (db : DBState) (m : Message) : Nat × DBState :=
  let mid := db.nextMessageId
  let stored : Message :=
    { m with id := some mid, timestamp := some db.clock }
  (mid, { db with
            messages := db.messages ++ [stored]
            nextMessageId := mid + 1
            clock := db.clock + 1 })

/-- Timestamp of a stored message row (stored rows always carry one). -/
def tsVal (m : Message) : Nat := m.timestamp.getD 0

/-- Message id of a stored message row. -/
def idVal (m : Message) : Nat := m.id.getD 0

/-- The comparison `ORDER BY timestamp DESC` sorts by. -/
def tsDesc (a b : Message) : Prop := tsVal b ≤ tsVal a

instance : DecidableRel tsDesc := fun a b => by
  unfold tsDesc; infer_instance

/-- `SMSDatabase.get_conversation_history` (db.py lines 110-133): the
rows matching the phone number, `ORDER BY timestamp DESC LIMIT limit`. -/
def get_conversation_history (db : DBState) (phone_number : String)
    (limit : Nat) : List Message :=
  (List.insertionSort tsDesc
    (db.messages.filter (fun m => m.phone_number == phone_number))).take limit

/-- `SMSDatabase.get_stats` (db.py lines 171-190). -/
structure Stats where
  total_contacts : Nat
  total_messages : Nat
  auto_replies_sent : Nat
  deriving Repr, DecidableEq

/-- `SMSDatabase.get_stats`: the three COUNT queries. -/
def get_stats (db : DBState) : Stats :=
  { total_contacts := db.contacts.length
    total_messages := db.messages.length
    auto_replies_sent := (db.messages.filter (fun m => m.is_auto_reply)).length }

/-- The canned fallback text of `SMSAgent.generate_response`. -/
def canned_fallback : String := "Thanks for your message! I\x27ll get back to you soon."

/-- Python `x or default` on an optional string (`None` and `""` fall
through to the default). -/
def pyOrStr : Option String → String → String
  | none, d => d
  | some s, d => if s == "" then d else s

/-- `SMSAgent.generate_response` (sms_agent.py lines 47-87).  The opaque
Claude call and text extraction are a parameter: `Except.error` is an
exception raised during the call (caught by the blanket except, which
returns the canned text), `Except.ok r` is the extracted text (`none`
when no assistant text was found); `response or canned` handles falsy
extractions. -/
def generate_response (genOutcome : Except Unit (Option String)) : String :=
  match genOutcome with
  | Except.error _ => canned_fallback
  | Except.ok r => pyOrStr r canned_fallback

/-- The labels `classify_relationship` accepts from the model. -/
def relationship_labels : List String := ["family", "friend", "work", "unknown"]

/-- `SMSAgent.classify_relationship` (sms_agent.py lines 153-193): return
the existing relationship when it is not the string "unknown"; return
`none` with fewer than 3 history messages; otherwise consult the model
(outcome is a parameter) and accept only truthy responses whose
lower-casing is one of the four labels; exceptions yield `none`. -/
def classify_relationship (outcome : Except Unit (Option String))
    (contact : Contact) (history_len : Nat) : Option String :=
  if !(contact.relationship == some "unknown") then contact.relationship
  else if history_len < 3 then none
  else match outcome with
    | Except.error _ => none
    | Except.ok none => none
    | Except.ok (some s) =>
      if !(s == "") && relationship_labels.contains (pyLower s) then
        some (pyLower s)
      else none

/-- `SMSProcessor._update_contact_info` (sms_processor.py lines 183-201):
classify only when the relationship is the string "unknown" and at least
3 history messages exist; persist via `update_contact` only when the
label is truthy and not "unknown".  All failures are caught and
swallowed. -/
def update_contact_info (classifyOutcome : Except Unit (Option String))
    (contact : Contact) (history : List Message) (db : DBState) : DBState :=
  if contact.relationship == some "unknown" && decide (3 ≤ history.length) then
    match classify_relationship classifyOutcome contact history.length with
    | some r =>
      if !(r == "") && !(r == "unknown") then
        update_contact db contact.phone_number { relationship := some r }
      else db
    | none => db
  else db

/-- Environment for one run of `process_incoming_sms`: the outcomes of
the opaque collaborator calls (AI generation, AI classification, SMS
delivery callback) and of the fallible incoming-message INSERT. -/
structure Env where
  genOutcome : Except Unit (Option String) := Except.ok none
  classifyOutcome : Except Unit (Option String) := Except.ok none
  hasCallback : Bool := true
  saveIncomingOk : Bool := true
  sendOk : Bool := true
  deriving Repr

/-- The result dict of `SMSProcessor.process_incoming_sms`. -/
structure PipelineResult where
  message_id : Option Nat := none
  contact_id : Option Nat := none
  auto_reply_sent : Bool := false
  response_text : Option String := none
  should_reply : Option Bool := none
  error : Option String := none
  deriving Repr, DecidableEq

/-- One run of the pipeline: its result dict, the database afterwards,
and the delivery attempts made (to_number, body), in order. -/
structure PipelineOut where
  result : PipelineResult
  db : DBState
  sent : List (String × String) := []
  deriving Repr, DecidableEq

/-- `SMSProcessor.process_incoming_sms` (sms_processor.py lines 45-129).
The outer try catches every exception and returns an error dict, so the
embedding is total; a failing incoming INSERT or a raising delivery
callback (`_send_sms_safely` logs and re-raises) jumps to that handler,
skipping everything downstream.  Enrichment runs last on every
non-raising path. -/
def process_incoming_sms (env : Env) (db : DBState)
    (from_number body : String) : PipelineOut :=
  let gc := get_or_create_contact db from_number
  let contact := gc.1
  let db1 := gc.2
  if !env.saveIncomingOk then
    { result := { error := some "PersistenceError" }, db := db1 }
  else
    let sv := save_message db1
      { contact_id := contact.id.getD 0
        phone_number := from_number
        message_text := body
        direction := "incoming"
        is_auto_reply := false }
    let message_id := sv.1
    let db2 := sv.2
    let history := get_conversation_history db2 from_number 10
    let should := should_auto_reply contact body
    let base : PipelineResult :=
      { message_id := some message_id
        contact_id := contact.id
        auto_reply_sent := false
        response_text := none
        should_reply := some should }
    if should then
      let response := generate_response env.genOutcome
      if env.hasCallback && !(response == "") then
        if !env.sendOk then
          { result := { error := some "DeliveryError" }, db := db2,
            sent := [(from_number, response)] }
        else
          let db3 := (save_message db2
            { contact_id := contact.id.getD 0
              phone_number := from_number
              message_text := response
              direction := "outgoing"
              is_auto_reply := true }).2
          let db4 := update_contact_info env.classifyOutcome contact history db3
          { result := { base with
                          auto_reply_sent := true
                          response_text := some response }
            db := db4
            sent := [(from_number, response)] }
      else
        let db3 := update_contact_info env.classifyOutcome contact history db2
        { result := { base with response_text := some response }, db := db3 }
    else
      let db3 := update_contact_info env.classifyOutcome contact history db2
      { result := base, db := db3 }

/-- `SMSProcessor.get_conversation` (sms_processor.py lines 231-263):
resolves the contact through `get_or_create_contact` (creating it when
absent) before reading the history. -/
def get_conversation (db : DBState) (phone_number : String) (limit : Nat) :
    Contact × List Message × DBState :=
  let gc := get_or_create_contact db phone_number
  (gc.1, get_conversation_history gc.2 phone_number limit, gc.2)

/-- The synchronous prefix of one webhook background task: from task
start to the first await point of `process_incoming_sms`
(`get_or_create_contact`, `save_message` of the incoming row,
`get_conversation_history` all run without yielding the event loop). -/
def persistIncomingPhase (db : DBState) (from_number body : String) : DBState :=
  let gc := get_or_create_contact db from_number
  (save_message gc.2
    { contact_id := gc.1.id.getD 0
      phone_number := from_number
      message_text := body
      direction := "incoming"
      is_auto_reply := false }).2

/-- Two webhook deliveries for the same phone number (bodies `b1` then
`b2`, in arrival order): `sms_webhook` (api.py lines 131-162) schedules
each as an independent background task with no per-phone mutual
exclusion anywhere in the pipeline, so the event loop is free to start
the second task first; both task orders are reachable schedules. -/
def runTwoWebhookTasks (db : DBState) (p b1 b2 : String)
    (secondTaskFirst : Bool) : DBState :=
  if secondTaskFirst then
    persistIncomingPhase (persistIncomingPhase db p b2) p b1
  else
    persistIncomingPhase (persistIncomingPhase db p b1) p b2

/-- The stamped incoming row that `process_incoming_sms` persists first:
the row built at sms_processor.py lines 59-66, as stored by
`save_message` right after contact resolution. -/
def incomingRow (db : DBState) (f b : String) : Message :=
  { id := some (get_or_create_contact db f).2.nextMessageId
    contact_id := (get_or_create_contact db f).1.id.getD 0
    phone_number := f
    message_text := b
    direction := "incoming"
    timestamp := some (get_or_create_contact db f).2.clock
    is_auto_reply := false }

/-- Well-formedness of a database state: message rows carry strictly
increasing commit timestamps (the modelled schema default), every stored
timestamp is below the clock, and every stored id is below the next
rowid.  Holds for `emptyDB` and is preserved by every operation. -/
def WF (db : DBState) : Prop :=
  db.messages.Pairwise (fun a b => tsVal a < tsVal b) ∧
  (∀ m ∈ db.messages, tsVal m < db.clock) ∧
  (∀ m ∈ db.messages, idVal m < db.nextMessageId)

instance (db : DBState) : Decidable (WF db) := by
  unfold WF; infer_instance

/-! Helper lemmas. -/

/-- Inserting an element below every element of a descending list puts
it at the end. -/
theorem orderedInsert_append_last (a : Message) :
    ∀ l : List Message, (∀ b ∈ l, ¬ tsDesc a b) →
      List.orderedInsert tsDesc a l = l ++ [a]
  | [], _ => by simp [List.orderedInsert]
  | b :: l, h => by
    have hb : ¬ tsDesc a b := h b (by simp)
    have hl : ∀ c ∈ l, ¬ tsDesc a c := fun c hc => h c (by simp [hc])
    simp [List.orderedInsert, if_neg hb, orderedInsert_append_last a l hl]

/-- Sorting a strictly-ascending list by descending timestamp reverses
it. -/
theorem insertionSort_tsDesc_eq_reverse :
    ∀ l : List Message, l.Pairwise (fun x y => tsVal x < tsVal y) →
      List.insertionSort tsDesc l = l.reverse
  | [], _ => by simp
  | a :: l, h => by
    have h1 : ∀ b ∈ l, tsVal a < tsVal b := (List.pairwise_cons.mp h).1
    have h2 := (List.pairwise_cons.mp h).2
    have hnot : ∀ b ∈ l.reverse, ¬ tsDesc a b := by
      intro b hb
      have hab := h1 b (List.mem_reverse.mp hb)
      unfold tsDesc
      omega
    simp [List.insertionSort, insertionSort_tsDesc_eq_reverse l h2,
      orderedInsert_append_last a l.reverse hnot]

/-- The reversal of the first `n` elements of a reversed list is a
suffix of the original list. -/
theorem reverse_take_reverse_suffix {α : Type} (l : List α) (n : Nat) :
    List.IsSuffix ((l.reverse.take n).reverse) l := by
  have h2 : ((l.reverse.take n).reverse).reverse <+: l.reverse := by
    simpa using List.take_prefix n l.reverse
  exact List.reverse_prefix.mp h2

/-- The empty database is well-formed. -/
theorem wf_empty : WF emptyDB := by decide

/-- `save_message` preserves well-formedness. -/
theorem wf_save_message (db : DBState) (m : Message) (h : WF db) :
    WF (save_message db m).2 := by
  obtain ⟨hp, ht, hi⟩ := h
  refine ⟨?_, ?_, ?_⟩
  · simp only [save_message]
    rw [List.pairwise_append]
    refine ⟨hp, by simp, ?_⟩
    intro a ha b hb
    simp only [List.mem_singleton] at hb
    subst hb
    simpa [tsVal] using ht a ha
  · intro x hx
    simp only [save_message] at hx ⊢
    rcases List.mem_append.mp hx with h1 | h1
    · exact Nat.lt_succ_of_lt (ht x h1)
    · simp only [List.mem_singleton] at h1
      subst h1
      simp [tsVal]
  · intro x hx
    simp only [save_message] at hx ⊢
    rcases List.mem_append.mp hx with h1 | h1
    · exact Nat.lt_succ_of_lt (hi x h1)
    · simp only [List.mem_singleton] at h1
      subst h1
      simp [idVal]

/-- `get_or_create_contact` preserves well-formedness (it never touches
the messages table and only advances the clock). -/
theorem wf_get_or_create (db : DBState) (p : String) (h : WF db) :
    WF (get_or_create_contact db p).2 := by
  obtain ⟨hp, ht, hi⟩ := h
  unfold get_or_create_contact
  cases db.contacts.find? (fun c => c.phone_number == p) with
  | some c => exact ⟨hp, ht, hi⟩
  | none =>
    exact ⟨hp, fun m hm => Nat.lt_succ_of_lt (ht m hm), hi⟩

/-- `update_contact` preserves well-formedness. -/
theorem wf_update_contact (db : DBState) (p : String) (u : ContactUpdates)
    (h : WF db) : WF (update_contact db p u) := by
  obtain ⟨hp, ht, hi⟩ := h
  unfold update_contact
  by_cases hne : u.nonempty = true
  · simp only [hne, if_true]
    exact ⟨hp, fun m hm => Nat.lt_succ_of_lt (ht m hm), hi⟩
  · simp only [hne]
    exact ⟨hp, ht, hi⟩

/-- `update_contact` never changes the messages table. -/
theorem messages_update_contact (db : DBState) (p : String)
    (u : ContactUpdates) : (update_contact db p u).messages = db.messages := by
  unfold update_contact
  by_cases hne : u.nonempty = true <;> simp [hne]

/-- `update_contact_info` never changes the messages table. -/
theorem messages_update_contact_info (o : Except Unit (Option String))
    (c : Contact) (hist : List Message) (db : DBState) :
    (update_contact_info o c hist db).messages = db.messages := by
  unfold update_contact_info
  by_cases hg : (c.relationship == some "unknown" && decide (3 ≤ hist.length)) = true
  · simp only [hg, if_true]
    cases hcl : classify_relationship o c hist.length with
    | none => rfl
    | some r =>
      by_cases hr : (!(r == "") && !(r == "unknown")) = true
      · simp [hr, messages_update_contact]
      · simp [hr]
  · simp [hg]

/-- `generate_response` never returns the empty string. -/
theorem generate_response_ne_empty (g : Except Unit (Option String)) :
    ((generate_response g) == "") = false := by
  cases g with
  | error e =>
    cases e
    decide
  | ok r =>
    cases r with
    | none => decide
    | some s =>
      simp only [generate_response, pyOrStr]
      by_cases hs : (s == "") = true
      · simp [hs]; decide
      · simp [hs]

/-- `get_or_create_contact` never changes the messages table. -/
theorem messages_get_or_create (db : DBState) (p : String) :
    (get_or_create_contact db p).2.messages = db.messages := by
  unfold get_or_create_contact
  cases db.contacts.find? (fun c => c.phone_number == p) <;> rfl

/-! Claim theorems. -/

/-- C1: the claim says a brand-new contact (trust_level 0, relationship
"unknown", exactly what `get_or_create_contact` assigns) with a trimmed
incoming text of length at least 3 never gets an auto-reply.  The code
disagrees: `should_auto_reply` guards with
`trust_level == 0 and not contact.relationship`, and the string
"unknown" is truthy, so the unknown-sender rule never fires for the
contacts the system itself creates — "hello there" (no urgent or
sensitive keyword) from a brand-new contact yields true. -/
theorem unknown_sender_guard_dead :
    (get_or_create_contact emptyDB "+15550001111").1.trust_level = 0 ∧
    (get_or_create_contact emptyDB "+15550001111").1.relationship = some "unknown" ∧
    3 ≤ (pyStrip (pyLower "hello there")).length ∧
    should_auto_reply (get_or_create_contact emptyDB "+15550001111").1
      "hello there" = true := by
  refine ⟨rfl, rfl, by decide, by decide⟩

/-- C2: the claim says two inbound messages M1 then M2 from the same
phone number are always persisted in arrival order [M1, M2] even when
their units of work run concurrently.  The webhook handler schedules
each message as an independent background task and no component holds a
per-phone-number lock, so the event loop may start the second task
first; under that reachable schedule the history is [M2, M1], while the
other schedule gives [M1, M2]. -/
theorem concurrent_same_phone_reorders_history :
    ((runTwoWebhookTasks emptyDB "+15550001111" "first message"
        "second message" true).messages.map (fun m => m.message_text) =
      ["second message", "first message"]) ∧
    ((runTwoWebhookTasks emptyDB "+15550001111" "first message"
        "second message" false).messages.map (fun m => m.message_text) =
      ["first message", "second message"]) := by
  exact ⟨by decide, by decide⟩

/-- C5 counterexample: `update_contact` on a phone number with no
contact row does not fail with NotFound — the UPDATE matches zero rows
and the call returns normally, leaving the contacts (and messages)
tables unchanged. -/
theorem update_contact_missing_is_silent_noop :
    (update_contact emptyDB "+15550001111"
        { trust_level := some 2 }).contacts = [] ∧
    (update_contact emptyDB "+15550001111"
        { trust_level := some 2 }).messages = [] ∧
    update_contact emptyDB "+15550001111" { trust_level := some 2 } =
      { emptyDB with clock := 2 } := by
  exact ⟨rfl, rfl, by decide⟩

/-- C5 (amended): `update_contact` merges only the provided fields among
name, relationship and trust_level into every row matching the phone
number, refreshing updated_at and leaving id, phone_number and
created_at untouched; rows for other phone numbers are unchanged; and
when no contact with the given phone_number exists the UPDATE matches
zero rows and the call returns normally with the contacts table
unchanged (it does not fail with NotFound). -/
theorem update_contact_spec (db : DBState) (p : String) (u : ContactUpdates)
    (hne : u.nonempty = true) :
    (∀ c ∈ db.contacts, c.phone_number = p →
        applyUpdates u db.clock c ∈ (update_contact db p u).contacts) ∧
    (∀ c ∈ db.contacts, c.phone_number ≠ p →
        c ∈ (update_contact db p u).contacts) ∧
    (∀ c : Contact,
        (applyUpdates u db.clock c).updated_at = some db.clock ∧
        (applyUpdates u db.clock c).id = c.id ∧
        (applyUpdates u db.clock c).phone_number = c.phone_number ∧
        (applyUpdates u db.clock c).created_at = c.created_at ∧
        (u.name = none → (applyUpdates u db.clock c).name = c.name) ∧
        (u.relationship = none →
          (applyUpdates u db.clock c).relationship = c.relationship) ∧
        (u.trust_level = none →
          (applyUpdates u db.clock c).trust_level = c.trust_level) ∧
        (∀ v, u.name = some v → (applyUpdates u db.clock c).name = some v) ∧
        (∀ v, u.relationship = some v →
          (applyUpdates u db.clock c).relationship = some v) ∧
        (∀ v, u.trust_level = some v →
          (applyUpdates u db.clock c).trust_level = v)) ∧
    ((∀ c ∈ db.contacts, c.phone_number ≠ p) →
        (update_contact db p u).contacts = db.contacts) := by
  have aux : ∀ l : List Contact, (∀ c ∈ l, c.phone_number ≠ p) →
      l.map (fun c => if c.phone_number == p then applyUpdates u db.clock c
        else c) = l := by
    intro l
    induction l with
    | nil => simp
    | cons a t ih =>
      intro h
      have ha : ¬ (a.phone_number = p) := h a (List.mem_cons_self a t)
      rw [List.map_cons, if_neg (by simpa using ha),
        ih (fun c hc => h c (List.mem_cons_of_mem a hc))]
  refine ⟨?_, ?_, ?_, ?_⟩
  · intro c hc hcp
    unfold update_contact
    simp only [hne, if_true]
    exact List.mem_map.mpr ⟨c, hc, by simp [hcp]⟩
  · intro c hc hcp
    unfold update_contact
    simp only [hne, if_true]
    have hb : (c.phone_number == p) = false := by simp [hcp]
    exact List.mem_map.mpr ⟨c, hc, by simp [hb]⟩
  · intro c
    unfold applyUpdates
    refine ⟨rfl, rfl, rfl, rfl, ?_, ?_, ?_, ?_, ?_, ?_⟩ <;>
      first
        | (intro h; simp [h])
        | (intro v h; simp [h])
  · intro hall
    unfold update_contact
    simp only [hne, if_true]
    exact aux db.contacts hall

/-- Witness for the amended C5 theorem: updating the trust level of the
one existing contact stores the merged row. -/
theorem update_contact_spec_witness :
    applyUpdates { trust_level := some 2 }
        ((get_or_create_contact emptyDB "+15550001111").2).clock
        (get_or_create_contact emptyDB "+15550001111").1 ∈
      (update_contact (get_or_create_contact emptyDB "+15550001111").2
        "+15550001111" { trust_level := some 2 }).contacts :=
  (update_contact_spec (get_or_create_contact emptyDB "+15550001111").2
      "+15550001111" { trust_level := some 2 } (by decide)).1
    (get_or_create_contact emptyDB "+15550001111").1 (by decide) rfl

/-- C9: the classification enricher runs only when the relationship is
"unknown" and at least 3 history messages exist, and persists only a
label that is neither missing nor "unknown"; hence for a contact whose
relationship is family, friend or work the enrichment path leaves the
database (in particular the stored relationship) unchanged. -/
theorem enricher_preserves_known_relationship
    (o : Except Unit (Option String)) (contact : Contact)
    (history : List Message) (db : DBState) :
    ((contact.relationship = some "family" ∨
        contact.relationship = some "friend" ∨
        contact.relationship = some "work") →
      update_contact_info o contact history db = db) ∧
    (history.length < 3 → update_contact_info o contact history db = db) ∧
    ((classify_relationship o contact history.length = none ∨
        classify_relationship o contact history.length = some "unknown") →
      update_contact_info o contact history db = db) := by
  refine ⟨?_, ?_, ?_⟩
  · intro h
    unfold update_contact_info
    rcases h with h | h | h <;> simp [h]
  · intro h
    unfold update_contact_info
    have hlen : decide (3 ≤ history.length) = false := by
      simp
      omega
    simp [hlen]
  · intro h
    unfold update_contact_info
    rcases h with h | h <;> simp [h]

/-- Witness for C9: an enrichment pass over a contact already classified
as a friend changes nothing. -/
theorem enricher_preserves_known_relationship_witness :
    update_contact_info (Except.ok none) { relationship := some "friend" }
      [] emptyDB = emptyDB :=
  (enricher_preserves_known_relationship (Except.ok none)
      { relationship := some "friend" } [] emptyDB).1 (Or.inr (Or.inl rfl))

/-- C10: `get_conversation` is not side-effect free — on a never-seen
phone number it first calls `get_or_create_contact`, which persists a
new contact row with relationship "unknown" and trust_level 0 and
increases the total_contacts statistic by one. -/
theorem get_conversation_creates_contact (db : DBState) (p : String)
    (n : Nat) (habsent : ∀ c ∈ db.contacts, c.phone_number ≠ p) :
    (get_conversation db p n).2.2.contacts =
      db.contacts ++ [(get_or_create_contact db p).1] ∧
    (get_or_create_contact db p).1.relationship = some "unknown" ∧
    (get_or_create_contact db p).1.trust_level = 0 ∧
    (get_or_create_contact db p).1.phone_number = p ∧
    (get_stats (get_conversation db p n).2.2).total_contacts =
      (get_stats db).total_contacts + 1 := by
  have hfind : db.contacts.find? (fun c => c.phone_number == p) = none :=
    List.find?_eq_none.mpr (fun c hc => by simp [habsent c hc])
  refine ⟨?_, ?_, ?_, ?_, ?_⟩ <;>
    simp [get_conversation, get_or_create_contact, hfind, get_stats]

/-- Witness for C10: querying the conversation of a new number on a
database holding one other contact creates a second contact row. -/
theorem get_conversation_creates_contact_witness :
    (get_conversation (get_or_create_contact emptyDB "+12225550000").2
        "+19995550000" 5).2.2.contacts =
      (get_or_create_contact emptyDB "+12225550000").2.contacts ++
        [(get_or_create_contact
            (get_or_create_contact emptyDB "+12225550000").2
            "+19995550000").1] :=
  (get_conversation_creates_contact
      (get_or_create_contact emptyDB "+12225550000").2 "+19995550000" 5
      (by decide)).1

/-- C3: `should_auto_reply` evaluates its rules first-match-wins: a
trimmed text shorter than 3 characters yields false; otherwise any
urgent-keyword substring yields false; otherwise any sensitive-keyword
substring yields false; otherwise, when the unknown-sender rule (as
implemented: trust_level 0 and falsy relationship) also does not match,
it yields true. -/
theorem evaluate_precedence (contact : Contact) (incoming : String) :
    ((pyStrip (pyLower incoming)).length < 3 →
      should_auto_reply contact incoming = false) ∧
    (3 ≤ (pyStrip (pyLower incoming)).length →
      urgent_keywords.any
          (fun k => strContains (pyStrip (pyLower incoming)) k) = true →
      should_auto_reply contact incoming = false) ∧
    (3 ≤ (pyStrip (pyLower incoming)).length →
      urgent_keywords.any
          (fun k => strContains (pyStrip (pyLower incoming)) k) = false →
      sensitive_keywords.any
          (fun k => strContains (pyStrip (pyLower incoming)) k) = true →
      should_auto_reply contact incoming = false) ∧
    (3 ≤ (pyStrip (pyLower incoming)).length →
      urgent_keywords.any
          (fun k => strContains (pyStrip (pyLower incoming)) k) = false →
      sensitive_keywords.any
          (fun k => strContains (pyStrip (pyLower incoming)) k) = false →
      (contact.trust_level == 0 && !(pyTruthy contact.relationship)) = false →
      should_auto_reply contact incoming = true) := by
  unfold should_auto_reply
  refine ⟨?_, ?_, ?_, ?_⟩
  · intro h1
    simp [if_pos h1]
  · intro h1 h2
    rw [if_neg (by omega)]
    by_cases hu :
        (contact.trust_level == 0 && !(pyTruthy contact.relationship)) = true
    · simp [hu]
    · simp [hu, h2]
  · intro h1 h2 h3
    rw [if_neg (by omega)]
    by_cases hu :
        (contact.trust_level == 0 && !(pyTruthy contact.relationship)) = true
    · simp [hu]
    · simp [hu, h2, h3]
  · intro h1 h2 h3 h4
    rw [if_neg (by omega)]
    simp [h2, h3, h4]

/-- Witness for C3: a trusted contact (trust_level 2) sending
"see you soon" gets an auto-reply. -/
theorem evaluate_precedence_witness :
    should_auto_reply { relationship := some "friend", trust_level := 2 }
      "see you soon" = true :=
  (evaluate_precedence { relationship := some "friend", trust_level := 2 }
      "see you soon").2.2.2 (by decide) (by decide) (by decide) (by decide)

/-- C4: `save_message` stores the row with the persistence-time
timestamp (the INSERT omits the timestamp column, so the
construction-time timestamp is ignored — replacing it changes nothing),
and on a well-formed database the returned id and the stored timestamp
strictly follow those of every previously committed message (in
particular every one for the same contact); well-formedness is
preserved. -/
theorem save_message_assigns_commit_order (db : DBState) (m : Message)
    (h : WF db) :
    (save_message db m).2.messages =
      db.messages ++ [{ m with id := some (save_message db m).1,
                               timestamp := some db.clock }] ∧
    (∀ t, (save_message db { m with timestamp := t }).2.messages =
      (save_message db m).2.messages) ∧
    (∀ prev ∈ db.messages,
        tsVal prev < db.clock ∧ idVal prev < (save_message db m).1) ∧
    WF (save_message db m).2 := by
  refine ⟨rfl, fun t => rfl, ?_, wf_save_message db m h⟩
  intro prev hp
  exact ⟨h.2.1 prev hp, h.2.2 prev hp⟩

/-- Witness for C4: after one commit, the stored row's timestamp and id
strictly precede the clock at and the id returned by the next commit. -/
theorem save_message_assigns_commit_order_witness :
    tsVal { id := some 1, contact_id := 0, phone_number := "+15550001111",
            message_text := "hi there", direction := "incoming",
            timestamp := some 1, is_auto_reply := false } <
      (save_message emptyDB
        { phone_number := "+15550001111",
          message_text := "hi there", direction := "incoming" }).2.clock ∧
    idVal { id := some 1, contact_id := 0, phone_number := "+15550001111",
            message_text := "hi there", direction := "incoming",
            timestamp := some 1, is_auto_reply := false } <
      (save_message
        (save_message emptyDB
          { phone_number := "+15550001111",
            message_text := "hi there", direction := "incoming" }).2
        { phone_number := "+15550001111", message_text := "you around",
          direction := "incoming" }).1 :=
  (save_message_assigns_commit_order
      (save_message emptyDB
        { phone_number := "+15550001111",
          message_text := "hi there", direction := "incoming" }).2
      { phone_number := "+15550001111", message_text := "you around",
        direction := "incoming" } (by decide)).2.2.1
    { id := some 1, contact_id := 0, phone_number := "+15550001111",
      message_text := "hi there", direction := "incoming",
      timestamp := some 1, is_auto_reply := false } (by decide)

/-- C8: on a well-formed database, `get_conversation_history p n` is
exactly the last `n` committed messages for `p` in reverse commit
(reverse chronological) order, and its reversal is a suffix of the
chronological message list for `p` — i.e. reversing recovers insertion
order. -/
theorem history_most_recent (db : DBState) (p : String) (n : Nat)
    (h : WF db) :
    get_conversation_history db p n =
      ((db.messages.filter (fun m => m.phone_number == p)).reverse).take n ∧
    List.IsSuffix ((get_conversation_history db p n).reverse)
      (db.messages.filter (fun m => m.phone_number == p)) := by
  have hasc : (db.messages.filter
      (fun m => m.phone_number == p)).Pairwise
      (fun x y => tsVal x < tsVal y) :=
    List.Pairwise.sublist (List.filter_sublist db.messages) h.1
  have he : get_conversation_history db p n =
      ((db.messages.filter (fun m => m.phone_number == p)).reverse).take n := by
    unfold get_conversation_history
    rw [insertionSort_tsDesc_eq_reverse _ hasc]
  refine ⟨he, ?_⟩
  rw [he]
  exact reverse_take_reverse_suffix _ n

/-- Witness for C8: with three committed messages (two for the queried
number), the one-element history is the most recent matching message. -/
theorem history_most_recent_witness :
    get_conversation_history
        (persistIncomingPhase
          (persistIncomingPhase
            (persistIncomingPhase emptyDB "+15550001111" "first")
            "+19995550000" "other") "+15550001111" "second")
        "+15550001111" 1 =
      (((persistIncomingPhase
          (persistIncomingPhase
            (persistIncomingPhase emptyDB "+15550001111" "first")
            "+19995550000" "other") "+15550001111" "second").messages.filter
          (fun m => m.phone_number == "+15550001111")).reverse).take 1 :=
  (history_most_recent
      (persistIncomingPhase
        (persistIncomingPhase
          (persistIncomingPhase emptyDB "+15550001111" "first")
          "+19995550000" "other") "+15550001111" "second")
      "+15550001111" 1 (by decide)).1

/-- C6: when the generation call raises (failure or timeout surfaced as
an exception), the pipeline uses the fixed canned text, attempts to
deliver it through the callback, and surfaces no generation error to its
caller; when the delivery succeeds the run completes normally with the
canned text as the auto-reply. -/
theorem generation_failure_uses_canned_fallback (env : Env) (db : DBState)
    (from_number body : String) (e : Unit)
    (hgen : env.genOutcome = Except.error e)
    (hsave : env.saveIncomingOk = true)
    (hcb : env.hasCallback = true)
    (helig : should_auto_reply (get_or_create_contact db from_number).1
      body = true) :
    (process_incoming_sms env db from_number body).sent =
      [(from_number, canned_fallback)] ∧
    (env.sendOk = true →
      (process_incoming_sms env db from_number body).result.response_text =
        some canned_fallback ∧
      (process_incoming_sms env db from_number body).result.auto_reply_sent =
        true ∧
      (process_incoming_sms env db from_number body).result.error = none) := by
  have hresp : generate_response env.genOutcome = canned_fallback := by
    rw [hgen]
    rfl
  have hc : (canned_fallback == "") = false := by decide
  by_cases hsend : env.sendOk = true
  · simp [process_incoming_sms, hsave, hcb, helig, hresp, hc, hsend]
  · have hsend0 : env.sendOk = false := by
      revert hsend
      cases env.sendOk <;> simp
    simp [process_incoming_sms, hsave, hcb, helig, hresp, hc, hsend0]

/-- Witness for C6: a trusted contact, a raising generation call and a
working callback — the canned text is sent and recorded. -/
theorem generation_failure_uses_canned_fallback_witness :
    (process_incoming_sms { genOutcome := Except.error () }
        (update_contact (get_or_create_contact emptyDB "+15550001111").2
          "+15550001111" { trust_level := some 2 })
        "+15550001111" "see you soon").sent =
      [("+15550001111", canned_fallback)] :=
  (generation_failure_uses_canned_fallback { genOutcome := Except.error () }
      (update_contact (get_or_create_contact emptyDB "+15550001111").2
        "+15550001111" { trust_level := some 2 })
      "+15550001111" "see you soon" () rfl rfl rfl (by decide)).1

/-- When the incoming INSERT succeeds, the stamped incoming row is in
the messages table afterwards, whatever the downstream outcomes. -/
theorem incoming_persisted (env : Env) (db : DBState) (f b : String)
    (h : env.saveIncomingOk = true) :
    incomingRow db f b ∈ (process_incoming_sms env db f b).db.messages := by
  by_cases hsh : should_auto_reply (get_or_create_contact db f).1 b = true
  · by_cases hcb : env.hasCallback = true
    · have hne := generate_response_ne_empty env.genOutcome
      by_cases hsend : env.sendOk = true
      · simp [process_incoming_sms, h, hsh, hcb, hne, hsend,
          messages_update_contact_info, save_message, incomingRow]
      · have hsend0 : env.sendOk = false := by
          revert hsend
          cases env.sendOk <;> simp
        simp [process_incoming_sms, h, hsh, hcb, hne, hsend0,
          save_message, incomingRow]
    · have hcb0 : env.hasCallback = false := by
        revert hcb
        cases env.hasCallback <;> simp
      simp [process_incoming_sms, h, hsh, hcb0,
        messages_update_contact_info, save_message, incomingRow]
  · have hsh0 : should_auto_reply (get_or_create_contact db f).1 b = false := by
      revert hsh
      cases should_auto_reply (get_or_create_contact db f).1 b <;> simp
    simp [process_incoming_sms, h, hsh0,
      messages_update_contact_info, save_message, incomingRow]

/-- C7 counterexample: a trusted contact, a successful generation and a
raising delivery callback — the pipeline aborts on the delivery failure:
error result, no outgoing row persisted, enrichment skipped.  So an
incoming-write persistence failure is not the only failure that aborts
the pipeline, refuting the claim as stated. -/
theorem delivery_failure_aborts_pipeline :
    (process_incoming_sms
        { genOutcome := Except.ok (some "Sure, what time?"), sendOk := false }
        (update_contact (get_or_create_contact emptyDB "+15550001111").2
          "+15550001111" { trust_level := some 2 })
        "+15550001111" "want to grab lunch?").result.error =
      some "DeliveryError" ∧
    (process_incoming_sms
        { genOutcome := Except.ok (some "Sure, what time?"), sendOk := false }
        (update_contact (get_or_create_contact emptyDB "+15550001111").2
          "+15550001111" { trust_level := some 2 })
        "+15550001111" "want to grab lunch?").db.messages.length = 1 ∧
    (process_incoming_sms
        { genOutcome := Except.ok (some "Sure, what time?"), sendOk := false }
        (update_contact (get_or_create_contact emptyDB "+15550001111").2
          "+15550001111" { trust_level := some 2 })
        "+15550001111" "want to grab lunch?").sent =
      [("+15550001111", "Sure, what time?")] ∧
    (process_incoming_sms
        { genOutcome := Except.ok (some "Sure, what time?"), sendOk := false }
        (update_contact (get_or_create_contact emptyDB "+15550001111").2
          "+15550001111" { trust_level := some 2 })
        "+15550001111" "want to grab lunch?").result.auto_reply_sent =
      false := by
  refine ⟨by decide, by decide, by decide, by decide⟩

/-- C7 (amended): the incoming message is persisted before the decision
and generation steps and is retained whatever happens downstream; an
incoming-write persistence failure aborts everything and is surfaced as
an error result (nothing is raised to the caller); when no delivery
failure occurs, downstream failures (generation, enrichment) surface no
error; but a delivery failure likewise aborts the remainder of the
pipeline — error result and no outgoing row persisted — while the
already-persisted inbound row is retained. -/
theorem pipeline_error_propagation (env : Env) (db : DBState)
    (f b : String) :
    (env.saveIncomingOk = false →
      (process_incoming_sms env db f b).result.error =
        some "PersistenceError" ∧
      (process_incoming_sms env db f b).sent = [] ∧
      (process_incoming_sms env db f b).db.messages = db.messages ∧
      (process_incoming_sms env db f b).result.auto_reply_sent = false) ∧
    (env.saveIncomingOk = true →
      incomingRow db f b ∈ (process_incoming_sms env db f b).db.messages ∧
      (incomingRow db f b).phone_number = f ∧
      (incomingRow db f b).message_text = b ∧
      (incomingRow db f b).direction = "incoming") ∧
    (env.saveIncomingOk = true → env.sendOk = true →
      (process_incoming_sms env db f b).result.error = none) ∧
    (env.saveIncomingOk = true → env.sendOk = false →
      env.hasCallback = true →
      should_auto_reply (get_or_create_contact db f).1 b = true →
      (process_incoming_sms env db f b).result.error =
        some "DeliveryError" ∧
      ((process_incoming_sms env db f b).db.messages.filter
          (fun m => m.direction == "outgoing")).length =
        (db.messages.filter (fun m => m.direction == "outgoing")).length ∧
      incomingRow db f b ∈ (process_incoming_sms env db f b).db.messages) := by
  refine ⟨?_, ?_, ?_, ?_⟩
  · intro h0
    simp [process_incoming_sms, h0, messages_get_or_create]
  · intro h
    exact ⟨incoming_persisted env db f b h, rfl, rfl, rfl⟩
  · intro h hsend
    by_cases hsh : should_auto_reply (get_or_create_contact db f).1 b = true
    · by_cases hcb : env.hasCallback = true
      · have hne := generate_response_ne_empty env.genOutcome
        simp [process_incoming_sms, h, hsh, hcb, hne, hsend]
      · have hcb0 : env.hasCallback = false := by
          revert hcb
          cases env.hasCallback <;> simp
        simp [process_incoming_sms, h, hsh, hcb0]
    · have hsh0 : should_auto_reply (get_or_create_contact db f).1 b = false := by
        revert hsh
        cases should_auto_reply (get_or_create_contact db f).1 b <;> simp
      simp [process_incoming_sms, h, hsh0]
  · intro h hsend0 hcb hsh
    have hne := generate_response_ne_empty env.genOutcome
    have hdir : (("incoming" : String) == "outgoing") = false := by decide
    refine ⟨?_, ?_, incoming_persisted env db f b h⟩
    · simp [process_incoming_sms, h, hsh, hcb, hne, hsend0]
    · simp [process_incoming_sms, h, hsh, hcb, hne, hsend0, save_message,
        messages_get_or_create, List.filter_append, hdir]

/-- Witness for the amended C7 theorem: a run whose delivery callback
raises still retains the persisted incoming row. -/
theorem pipeline_error_propagation_witness :
    incomingRow
        (update_contact (get_or_create_contact emptyDB "+15550001111").2
          "+15550001111" { trust_level := some 2 })
        "+15550001111" "want to grab lunch?" ∈
      (process_incoming_sms
        { genOutcome := Except.ok (some "Sure, what time?"), sendOk := false }
        (update_contact (get_or_create_contact emptyDB "+15550001111").2
          "+15550001111" { trust_level := some 2 })
        "+15550001111" "want to grab lunch?").db.messages :=
  ((pipeline_error_propagation
      { genOutcome := Except.ok (some "Sure, what time?"), sendOk := false }
      (update_contact (get_or_create_contact emptyDB "+15550001111").2
        "+15550001111" { trust_level := some 2 })
      "+15550001111" "want to grab lunch?").2.1 rfl).1

end SMS
